import Mathlib

/-!
Shallow embedding of `capa/features/address.py` and `capa/render/json.py`
(the Address abstraction of the capa capability-detection tool), together
with theorems settling the specification claims about it.

Python machine model used here:
* `a == b` dispatches to `type(a).__eq__(a, b)`; a `NotImplemented` result
  falls back to the reflected `type(b).__eq__(b, a)`, and if that is also
  `NotImplemented` the comparison falls back to object identity.  No two
  distinct classes in this module are in a subclass relation, so the
  subclass-priority rule for reflected operands never fires.
* `a < b` dispatches to `type(a).__lt__(a, b)`; `NotImplemented` falls back
  to the reflected `type(b).__gt__(b, a)`; if both decline, `TypeError`.
* A failed `assert` raises `AssertionError` (the spec calls construction
  failures `ValidationError`); accessing a missing attribute raises
  `AttributeError`.
* `hash` of an `int` is a fixed function of its value; `hash` of a tuple is
  a fixed combination of the hashes of its elements.  We represent the
  argument structure fed to the hash function as a `HashExpr` tree: any
  deterministic interpretation of that tree factors through it, so equal
  trees yield equal Python hashes.
-/

namespace Capa

/-- Exceptions that the address operations can raise. -/
inductive PyErr where
  | assertionError
  | attributeError
  | typeError
deriving DecidableEq, Repr

/-- The closed family of Address variants from `capa/features/address.py`.

Fields are the Python instance attributes, in the order used by the
comparison tuples: `ProcessAddress` carries `(ppid, pid)`, `ThreadAddress`
carries its owning process's `(ppid, pid)` inlined plus `tid`,
`DynamicAddress` carries `(id, return_address)`, `DNTokenOffsetAddress`
carries `(token, offset)`.  The four `int`-subclass variants
(`AbsoluteVirtualAddress`, `RelativeVirtualAddress`, `FileOffsetAddress`,
`DNTokenAddress`) carry their underlying integer value. -/
inductive Addr where
  | AbsoluteVirtualAddress (v : Int)
  | ProcessAddress (ppid pid : Int)
  | ThreadAddress (ppid pid tid : Int)
  | DynamicAddress (id ret : Int)
  | RelativeVirtualAddress (v : Int)
  | FileOffsetAddress (v : Int)
  | DNTokenAddress (token : Int)
  | DNTokenOffsetAddress (token offset : Int)
  | NoAddress
deriving DecidableEq, Repr

/-- `NO_ADDRESS = _NoAddress()` — the module-level sentinel instance. -/
def NO_ADDRESS : Addr := Addr.NoAddress

/-- A Python value that can appear as a comparison operand here: an
`Address` instance or a plain `int`. -/
inductive PyVal where
  | addr (a : Addr)
  | pyInt (n : Int)
deriving DecidableEq, Repr

/-- The underlying integer of a value that `isinstance(·, int)` accepts:
plain ints and the four `int`-subclass address variants. -/
def intValue : PyVal → Option Int
  | .pyInt n => some n
  | .addr (.AbsoluteVirtualAddress v) => some v
  | .addr (.RelativeVirtualAddress v) => some v
  | .addr (.FileOffsetAddress v) => some v
  | .addr (.DNTokenAddress v) => some v
  | _ => none

/-- True exactly for the four `int`-subclass address variants. -/
def intBacked : Addr → Bool
  | .AbsoluteVirtualAddress _ => true
  | .RelativeVirtualAddress _ => true
  | .FileOffsetAddress _ => true
  | .DNTokenAddress _ => true
  | _ => false

/-- Result of one class's own rich-comparison method: a boolean,
`NotImplemented`, or a raised exception. -/
inductive CmpRes where
  | val (b : Bool)
  | notImpl
  | exn (e : PyErr)
deriving DecidableEq, Repr

/-- Python tuple `<` on integer sequences: compare elementwise, the first
unequal position decides; a proper prefix is smaller. -/
def lexLt : List Int → List Int → Bool
  | [], [] => false
  | [], _ :: _ => true
  | _ :: _, [] => false
  | a :: as, b :: bs => if a < b then true else if b < a then false else lexLt as bs

/-- `type(self).__eq__(self, other)` for each class in the module:
* the `int`-subclass variants and plain ints inherit `int.__eq__`, which
  compares underlying values against any `int` and returns
  `NotImplemented` against anything else;
* `ProcessAddress.__eq__` / `ThreadAddress.__eq__` first
  `assert isinstance(other, <same class>)` and then compare field tuples
  (the tuple comparison of `ThreadAddress` recursively invokes
  `ProcessAddress.__eq__` on the two owning processes, which are both
  `ProcessAddress`, so no inner assert fires);
* `DynamicAddress.__eq__` reads `other.id` / `other.return_address` and
  `DNTokenOffsetAddress.__eq__` reads `other.token` / `other.offset`
  without any type check, raising `AttributeError` on every other variant
  and on plain ints (none of which carry those attributes);
* `_NoAddress.__eq__` returns `True` unconditionally. -/
def eqOwn : PyVal → PyVal → CmpRes
  | .addr (.ProcessAddress p1 p2), w =>
    match w with
    | .addr (.ProcessAddress q1 q2) => .val (p1 == q1 && p2 == q2)
    | _ => .exn .assertionError
  | .addr (.ThreadAddress p1 p2 t), w =>
    match w with
    | .addr (.ThreadAddress q1 q2 s) => .val ((p1 == q1 && p2 == q2) && t == s)
    | _ => .exn .assertionError
  | .addr (.DynamicAddress i r), w =>
    match w with
    | .addr (.DynamicAddress j s) => .val (i == j && r == s)
    | _ => .exn .attributeError
  | .addr (.DNTokenOffsetAddress t o), w =>
    match w with
    | .addr (.DNTokenOffsetAddress u p) => .val (t == u && o == p)
    | _ => .exn .attributeError
  | .addr .NoAddress, _ => .val true
  | v, w =>
    match intValue v, intValue w with
    | some n, some m => .val (n == m)
    | _, _ => .notImpl

/-- `type(self).__lt__(self, other)` for each class:
* `int.__lt__` compares values against ints, `NotImplemented` otherwise;
* the tuple comparisons of `ProcessAddress`, `ThreadAddress`,
  `DynamicAddress` and `DNTokenOffsetAddress` read the other operand's
  attributes with no isinstance check, so they raise `AttributeError`
  unless the other operand is the same variant; `ThreadAddress`'s tuple
  `<` first tests the two owning processes with `ProcessAddress.__eq__`
  and, when they differ, orders by `ProcessAddress.__lt__`;
* `_NoAddress.__lt__` returns `False` unconditionally. -/
def ltOwn : PyVal → PyVal → CmpRes
  | .addr (.ProcessAddress p1 p2), w =>
    match w with
    | .addr (.ProcessAddress q1 q2) => .val (lexLt [p1, p2] [q1, q2])
    | _ => .exn .attributeError
  | .addr (.ThreadAddress p1 p2 t), w =>
    match w with
    | .addr (.ThreadAddress q1 q2 s) =>
      .val (if p1 == q1 && p2 == q2 then t < s else lexLt [p1, p2] [q1, q2])
    | _ => .exn .attributeError
  | .addr (.DynamicAddress i r), w =>
    match w with
    | .addr (.DynamicAddress j s) => .val (lexLt [i, r] [j, s])
    | _ => .exn .attributeError
  | .addr (.DNTokenOffsetAddress t o), w =>
    match w with
    | .addr (.DNTokenOffsetAddress u p) => .val (lexLt [t, o] [u, p])
    | _ => .exn .attributeError
  | .addr .NoAddress, _ => .val false
  | v, w =>
    match intValue v, intValue w with
    | some n, some m => .val (n < m)
    | _, _ => .notImpl

/-- `type(self).__gt__(self, other)`: only the `int`-backed values define
`__gt__` (inherited from `int`); every other class falls back to
`object.__gt__`, which returns `NotImplemented`. -/
def gtOwn : PyVal → PyVal → CmpRes
  | v, w =>
    match intValue v, intValue w with
    | some n, some m => .val (m < n)
    | _, _ => .notImpl

/-- Full CPython dispatch for `v == w`: try `type(v).__eq__(v, w)`, on
`NotImplemented` try the reflected `type(w).__eq__(w, v)`, and if both
decline fall back to object identity.  In this module the double-decline
path is unreachable (`_NoAddress.__eq__` and the assert/attribute-raising
methods never return `NotImplemented`); the identity fallback is encoded
as structural equality of distinct freshly-constructed objects, i.e.
`false`. -/
def pyEq (v w : PyVal) : Except PyErr Bool :=
  match eqOwn v w with
  | .val b => .ok b
  | .exn e => .error e
  | .notImpl =>
    match eqOwn w v with
    | .val b => .ok b
    | .exn e => .error e
    | .notImpl => .ok false

/-- Full CPython dispatch for `v < w`: try `type(v).__lt__(v, w)`, on
`NotImplemented` try the reflected `type(w).__gt__(w, v)`, and if both
decline raise `TypeError`. -/
def pyLt (v w : PyVal) : Except PyErr Bool :=
  match ltOwn v w with
  | .val b => .ok b
  | .exn e => .error e
  | .notImpl =>
    match gtOwn w v with
    | .val b => .ok b
    | .exn e => .error e
    | .notImpl => .error .typeError

/-- `a == b` between two Address instances. -/
def pyEqA (a b : Addr) : Except PyErr Bool := pyEq (.addr a) (.addr b)

/-- `a < b` between two Address instances. -/
def pyLtA (a b : Addr) : Except PyErr Bool := pyLt (.addr a) (.addr b)

/-- The argument structure handed to Python's hash function: an int leaf
or a tuple node.  Any concrete hash is a deterministic interpretation of
this tree, so equal trees have equal hashes. -/
inductive HashExpr where
  | intH (n : Int)
  | tupleH (elems : List HashExpr)

/-- `hash(v)` as a `HashExpr`:
* the `int`-subclass variants define `__hash__ = int.__hash__(self)`, the
  hash of the underlying value;
* `ProcessAddress` hashes `(self.ppid, self.pid)`; `ThreadAddress` hashes
  `(self.process, self.tid)` where the process element contributes its own
  hash `hash((ppid, pid))`; `DynamicAddress` hashes
  `(self.id, self.return_address)`; `DNTokenOffsetAddress` hashes
  `(self.token, self.offset)`;
* `_NoAddress.__hash__` returns `hash(0)`. -/
def pyHashExpr : PyVal → HashExpr
  | .pyInt n => .intH n
  | .addr (.AbsoluteVirtualAddress v) => .intH v
  | .addr (.RelativeVirtualAddress v) => .intH v
  | .addr (.FileOffsetAddress v) => .intH v
  | .addr (.DNTokenAddress v) => .intH v
  | .addr (.ProcessAddress p1 p2) => .tupleH [.intH p1, .intH p2]
  | .addr (.ThreadAddress p1 p2 t) => .tupleH [.tupleH [.intH p1, .intH p2], .intH t]
  | .addr (.DynamicAddress i r) => .tupleH [.intH i, .intH r]
  | .addr (.DNTokenOffsetAddress t o) => .tupleH [.intH t, .intH o]
  | .addr .NoAddress => .intH 0

/-- `hash(a)` of an Address instance, as a `HashExpr`. -/
def pyHashA (a : Addr) : HashExpr := pyHashExpr (.addr a)

/-! ### Constructors

Each `mk…` models the Python constructor (`__new__` / `__init__`) with its
`assert` statements; a failed assert is a raised `AssertionError` (the
validation error of the spec).  Argument order follows the Python
signature (`ProcessAddress(pid, ppid=0)` takes `pid` first). -/

/-- `AbsoluteVirtualAddress.__new__`: `assert v >= 0`. -/
def mkAbsoluteVirtualAddress (v : Int) : Except PyErr Addr :=
  if 0 ≤ v then .ok (.AbsoluteVirtualAddress v) else .error .assertionError

/-- `RelativeVirtualAddress` has no constructor check. -/
def mkRelativeVirtualAddress (v : Int) : Except PyErr Addr :=
  .ok (.RelativeVirtualAddress v)

/-- `FileOffsetAddress.__new__`: `assert v >= 0`. -/
def mkFileOffsetAddress (v : Int) : Except PyErr Addr :=
  if 0 ≤ v then .ok (.FileOffsetAddress v) else .error .assertionError

/-- `ProcessAddress.__init__(pid, ppid=0)`: `assert ppid >= 0` then
`assert pid > 0`. -/
def mkProcessAddress (pid ppid : Int) : Except PyErr Addr :=
  if 0 ≤ ppid then
    if 0 < pid then .ok (.ProcessAddress ppid pid) else .error .assertionError
  else .error .assertionError

/-- `ThreadAddress.__init__(process, tid)`: `assert tid >= 0`; the process
argument (its `(ppid, pid)` fields here) is not validated. -/
def mkThreadAddress (ppid pid tid : Int) : Except PyErr Addr :=
  if 0 ≤ tid then .ok (.ThreadAddress ppid pid tid) else .error .assertionError

/-- `DynamicAddress.__init__(id_, return_address)`: `assert id_ >= 0` then
`assert return_address >= 0`. -/
def mkDynamicAddress (i ret : Int) : Except PyErr Addr :=
  if 0 ≤ i then
    if 0 ≤ ret then .ok (.DynamicAddress i ret) else .error .assertionError
  else .error .assertionError

/-- `DNTokenAddress.__new__` performs no check. -/
def mkDNTokenAddress (token : Int) : Except PyErr Addr :=
  .ok (.DNTokenAddress token)

/-- `DNTokenOffsetAddress.__init__(token, offset)`: `assert offset >= 0`;
`token` is not range-checked. -/
def mkDNTokenOffsetAddress (token offset : Int) : Except PyErr Addr :=
  if 0 ≤ offset then .ok (.DNTokenOffsetAddress token offset) else .error .assertionError

/-! ### Rendering and numeric index -/

/-- Lowercase hexadecimal digits of a natural number (Python `f"{n:x}"`). -/
def natHex (n : Nat) : String := (Nat.toDigits 16 n).asString

/-- Python `f"{n:x}"` on an `int`, negative values rendered with a sign. -/
def intHex (n : Int) : String :=
  if n < 0 then "-" ++ natHex (-n).toNat else natHex n.toNat

/-- `__repr__` of each variant, transcribed from the f-strings in the
source (`process` omits the `ppid` segment when `ppid` is not positive). -/
def pyReprA : Addr → String
  | .AbsoluteVirtualAddress v => "absolute(0x" ++ intHex v ++ ")"
  | .ProcessAddress ppid pid =>
    "process(" ++ (if 0 < ppid then "ppid: " ++ toString ppid ++ ", " else "")
      ++ "pid: " ++ toString pid ++ ")"
  | .ThreadAddress _ _ tid => "thread(tid: " ++ toString tid ++ ")"
  | .DynamicAddress i r =>
    "dynamic(event: " ++ toString i ++ ", returnaddress: 0x" ++ intHex r ++ ")"
  | .RelativeVirtualAddress v => "relative(0x" ++ intHex v ++ ")"
  | .FileOffsetAddress v => "file(0x" ++ intHex v ++ ")"
  | .DNTokenAddress t => "token(0x" ++ intHex t ++ ")"
  | .DNTokenOffsetAddress t o =>
    "token(0x" ++ intHex t ++ ")+(0x" ++ intHex o ++ ")"
  | .NoAddress => "no address"

/-- `__index__` / integer conversion: the `int`-subclass variants convert
to their underlying value; `DNTokenOffsetAddress.__index__` returns
`self.token + self.offset`; the remaining variants define none. -/
def pyIndexA : Addr → Option Int
  | .AbsoluteVirtualAddress v => some v
  | .RelativeVirtualAddress v => some v
  | .FileOffsetAddress v => some v
  | .DNTokenAddress v => some v
  | .DNTokenOffsetAddress t o => some (t + o)
  | _ => none

/-! ### Variant bookkeeping -/

/-- Discriminant of the variant (the Python class of the instance). -/
def tag : Addr → Nat
  | .AbsoluteVirtualAddress _ => 0
  | .ProcessAddress _ _ => 1
  | .ThreadAddress _ _ _ => 2
  | .DynamicAddress _ _ => 3
  | .RelativeVirtualAddress _ => 4
  | .FileOffsetAddress _ => 5
  | .DNTokenAddress _ => 6
  | .DNTokenOffsetAddress _ _ => 7
  | .NoAddress => 8

/-- The tuple of fields participating in same-variant equality and
ordering, in source order. -/
def key : Addr → List Int
  | .AbsoluteVirtualAddress v => [v]
  | .ProcessAddress ppid pid => [ppid, pid]
  | .ThreadAddress ppid pid tid => [ppid, pid, tid]
  | .DynamicAddress i r => [i, r]
  | .RelativeVirtualAddress v => [v]
  | .FileOffsetAddress v => [v]
  | .DNTokenAddress t => [t]
  | .DNTokenOffsetAddress t o => [t, o]
  | .NoAddress => []

/-! ### Render boundary (`capa/render/json.py`)

`render(meta, rules, capabilities)` returns
`rd.ResultDocument.from_capa(meta, rules, capabilities).model_dump_json(exclude_none=True)`.
The `capa.render.result_document` module itself is not part of the two
source files, so the document construction and serialization are modelled
from the spec (§6): a structured document whose serialization omits
absent/null fields, never fails on a well-formed match-result set, and
renders every Address as a variant tag plus its field values, losslessly. -/

/-- A structured (JSON-like) output value. -/
inductive Json where
  | null
  | str (s : String)
  | num (n : Int)
  | arr (elems : List Json)
  | obj (fields : List (String × Json))

/-- Modelled from the spec: the lossless, type-tagged serialized form of an
Address required by §6 (`capa.render.result_document` is not under `src/`):
variant name plus the variant's field values. -/
def serializeAddress (a : Addr) : Json :=
  .obj [("type", .str (match a with
      | .AbsoluteVirtualAddress _ => "absolute"
      | .ProcessAddress _ _ => "process"
      | .ThreadAddress _ _ _ => "thread"
      | .DynamicAddress _ _ => "call"
      | .RelativeVirtualAddress _ => "relative"
      | .FileOffsetAddress _ => "file"
      | .DNTokenAddress _ => "dn token"
      | .DNTokenOffsetAddress _ _ => "dn token offset"
      | .NoAddress => "no address")),
    ("value", .arr ((key a).map Json.num))]

/-- Reconstruction of an Address from its serialized form. -/
def deserializeAddress : Json → Option Addr
  | .obj [("type", .str t), ("value", .arr vs)] =>
    match t, vs with
    | "absolute", [.num v] => some (.AbsoluteVirtualAddress v)
    | "process", [.num ppid, .num pid] => some (.ProcessAddress ppid pid)
    | "thread", [.num ppid, .num pid, .num tid] => some (.ThreadAddress ppid pid tid)
    | "call", [.num i, .num r] => some (.DynamicAddress i r)
    | "relative", [.num v] => some (.RelativeVirtualAddress v)
    | "file", [.num v] => some (.FileOffsetAddress v)
    | "dn token", [.num v] => some (.DNTokenAddress v)
    | "dn token offset", [.num t, .num o] => some (.DNTokenOffsetAddress t o)
    | "no address", [] => some .NoAddress
    | _, _ => none
  | _ => none

/-- Modelled from the spec: the well-formed input of the render operation —
metadata with possibly-absent scalar fields, and match results keyed by
rule name, each match tagged by an Address. -/
structure ResultDocument where
  meta : List (String × Option String)
  matchResults : List (String × List Addr)

/-- Modelled from the spec: `render` builds the structured result document
and serializes it with `exclude_none=True`, dropping every metadata field
whose value is absent.  It is a total function: no input raises. -/
def render (d : ResultDocument) : Json :=
  .obj ((d.meta.filterMap fun kv => kv.2.map fun v => (kv.1, Json.str v)) ++
    [("rules", .obj (d.matchResults.map fun rm =>
      (rm.1, .arr (rm.2.map serializeAddress))))])

mutual

/-- No `null` occurs anywhere in the serialized value. -/
def noNull : Json → Bool
  | .null => false
  | .str _ => true
  | .num _ => true
  | .arr es => noNullList es
  | .obj fs => noNullFields fs

def noNullList : List Json → Bool
  | [] => true
  | j :: js => noNull j && noNullList js

def noNullFields : List (String × Json) → Bool
  | [] => true
  | (_, j) :: fs => noNull j && noNullFields fs

end

/-! ### Helper lemmas -/

theorem lexLt_cons_cons (a b : Int) (as bs : List Int) :
    lexLt (a :: as) (b :: bs) = if a = b then lexLt as bs else decide (a < b) := by
  by_cases h1 : a < b <;> by_cases h2 : b < a <;> by_cases h3 : a = b <;>
    simp [lexLt, h1, h2, h3] <;> omega

theorem lexLt_irrefl (l : List Int) : lexLt l l = false := by
  induction l with
  | nil => rfl
  | cons a as ih => simp [lexLt_cons_cons, ih]

theorem lexLt_trans {l1 l2 l3 : List Int} (h12 : lexLt l1 l2 = true)
    (h23 : lexLt l2 l3 = true) : lexLt l1 l3 = true := by
  induction l1 generalizing l2 l3 with
  | nil =>
    cases l2 with
    | nil => simp [lexLt] at h12
    | cons b bs =>
      cases l3 with
      | nil => simp [lexLt] at h23
      | cons c cs => simp [lexLt]
  | cons a as ih =>
    cases l2 with
    | nil => simp [lexLt] at h12
    | cons b bs =>
      cases l3 with
      | nil => simp [lexLt] at h23
      | cons c cs =>
        rw [lexLt_cons_cons] at h12 h23 ⊢
        by_cases hab : a = b
        · subst hab
          by_cases hbc : a = c
          · subst hbc
            simp at h12 h23 ⊢
            exact ih h12 h23
          · rw [if_neg hbc] at h23 ⊢
            exact h23
        · have hab' : a < b := by simpa [hab] using h12
          by_cases hbc : b = c
          · subst hbc
            rw [if_neg hab] at h12 ⊢
            exact h12
          · have hbc' : b < c := by simpa [hbc] using h23
            have hane : a ≠ c := by omega
            rw [if_neg hane]
            simp
            omega

theorem lexLt_asymm {l1 l2 : List Int} (h : lexLt l1 l2 = true) :
    lexLt l2 l1 = false := by
  induction l1 generalizing l2 with
  | nil =>
    cases l2 with
    | nil => simp [lexLt] at h
    | cons b bs => simp [lexLt]
  | cons a as ih =>
    cases l2 with
    | nil => simp [lexLt] at h
    | cons b bs =>
      rw [lexLt_cons_cons] at h ⊢
      by_cases hab : a = b
      · subst hab
        simp at h ⊢
        exact ih h
      · have hab' : a < b := by simpa [hab] using h
        have hba : b ≠ a := by omega
        rw [if_neg hba]
        simp
        omega

theorem lexLt_connected {l1 l2 : List Int} (hlen : l1.length = l2.length)
    (h12 : lexLt l1 l2 = false) (h21 : lexLt l2 l1 = false) : l1 = l2 := by
  induction l1 generalizing l2 with
  | nil =>
    cases l2 with
    | nil => rfl
    | cons b bs => simp at hlen
  | cons a as ih =>
    cases l2 with
    | nil => simp at hlen
    | cons b bs =>
      rw [lexLt_cons_cons] at h12 h21
      by_cases hab : a = b
      · subst hab
        simp at h12 h21 hlen
        exact congrArg (a :: ·) (ih hlen h12 h21)
      · have h1 : ¬ a < b := by simpa [hab] using h12
        have hba : b ≠ a := by omega
        have h2 : ¬ b < a := by simpa [hba] using h21
        exact absurd (by omega : a = b) hab

theorem key_length_eq {a b : Addr} (h : tag a = tag b) :
    (key a).length = (key b).length := by
  cases a <;> cases b <;> simp_all [tag, key]

theorem int_beq_decide (a b : Int) : (a == b) = decide (a = b) := by
  by_cases h : a = b <;> simp [h]

/-- Same-variant `==` returns (no exception) field-tuple equality, for
every variant including the sentinel. -/
theorem pyEqA_same (a b : Addr) (h : tag a = tag b) :
    pyEqA a b = .ok (decide (key a = key b)) := by
  cases a <;> cases b <;>
    simp_all [pyEqA, pyEq, eqOwn, intValue, key, tag, List.cons.injEq,
      decide_eq_true_eq, Bool.and_eq_true, int_beq_decide, Bool.and_assoc]

theorem lexLt_nil : lexLt [] [] = false := rfl

theorem lexLt_singleton (a b : Int) : lexLt [a] [b] = decide (a < b) := by
  by_cases h : a = b <;> simp [lexLt_cons_cons, lexLt_nil, h]

/-- The tuple comparison `(process, tid) < (other.process, other.tid)` (an
equality test on the processes, then `tid` or the process order) agrees
with flat lexicographic order on `[ppid, pid, tid]`. -/
theorem thread_lt_eq (p1 p2 t q1 q2 s : Int) :
    (if p1 == q1 && p2 == q2 then decide (t < s) else lexLt [p1, p2] [q1, q2])
      = lexLt [p1, p2, t] [q1, q2, s] := by
  by_cases h1 : p1 = q1
  · subst h1
    by_cases h2 : p2 = q2
    · subst h2
      simp [lexLt_cons_cons, lexLt_nil, int_beq_decide]
      by_cases h3 : t = s <;> simp [h3]
    · simp [lexLt_cons_cons, lexLt_nil, int_beq_decide, h2]
  · simp [lexLt_cons_cons, lexLt_nil, int_beq_decide, h1]

/-- Extending two integer pairs by the same last element does not change
their lexicographic comparison. -/
theorem lexLt_pair_ext (p1 p2 q1 q2 t : Int) :
    lexLt [p1, p2, t] [q1, q2, t] = lexLt [p1, p2] [q1, q2] := by
  by_cases h1 : p1 = q1 <;> by_cases h2 : p2 = q2 <;>
    simp [lexLt_cons_cons, lexLt_singleton, lexLt_nil, h1, h2]

/-- Same-variant `<` returns (no exception) lexicographic comparison of the
field tuples, for every variant including the sentinel. -/
theorem pyLtA_same (a b : Addr) (h : tag a = tag b) :
    pyLtA a b = .ok (lexLt (key a) (key b)) := by
  cases a <;> cases b <;> first
    | (exfalso
       simp only [tag] at h
       omega)
    | (simp only [pyLtA, pyLt, ltOwn, intValue, key, thread_lt_eq,
        lexLt_singleton, lexLt_nil])

/-- Same-variant hash trees are equal exactly when the equality field
tuples are: the hash input combines exactly the fields used by equality,
in the same order. -/
theorem pyHashA_eq_iff (a b : Addr) (h : tag a = tag b) :
    pyHashA a = pyHashA b ↔ key a = key b := by
  cases a <;> cases b <;> first
    | (exfalso
       simp only [tag] at h
       omega)
    | (simp [pyHashA, pyHashExpr, key, and_assoc])

theorem noNullList_all {l : List Json} (h : ∀ j ∈ l, noNull j = true) :
    noNullList l = true := by
  induction l with
  | nil => rfl
  | cons j js ih =>
    simp only [noNullList, Bool.and_eq_true]
    exact ⟨h j (by simp), ih fun x hx => h x (by simp [hx])⟩

theorem noNullFields_all {l : List (String × Json)}
    (h : ∀ kv ∈ l, noNull kv.2 = true) : noNullFields l = true := by
  induction l with
  | nil => rfl
  | cons kv fs ih =>
    obtain ⟨k, j⟩ := kv
    simp only [noNullFields, Bool.and_eq_true]
    exact ⟨h (k, j) (by simp), ih fun x hx => h x (by simp [hx])⟩

theorem noNull_serializeAddress (a : Addr) : noNull (serializeAddress a) = true := by
  cases a <;> rfl

theorem noNull_render (d : ResultDocument) : noNull (render d) = true := by
  show noNullFields _ = true
  apply noNullFields_all
  intro kv hkv
  rcases List.mem_append.mp hkv with hmeta | hrules
  · rcases List.mem_filterMap.mp hmeta with ⟨⟨k, v?⟩, _, hmap⟩
    rcases Option.map_eq_some'.mp hmap with ⟨v, _, hv⟩
    rw [← hv]
    rfl
  · rcases List.mem_singleton.mp hrules with rfl
    show noNullFields _ = true
    apply noNullFields_all
    intro kv2 hkv2
    rcases List.mem_map.mp hkv2 with ⟨⟨r, as⟩, _, hmap2⟩
    rw [← hmap2]
    show noNullList _ = true
    apply noNullList_all
    intro j hj
    rcases List.mem_map.mp hj with ⟨a, _, hja⟩
    rw [← hja]
    exact noNull_serializeAddress a

theorem deserialize_serialize (a : Addr) :
    deserializeAddress (serializeAddress a) = some a := by
  cases a <;> rfl

/-! ### Claims -/

/-- C1: the sentinel is absorbing for equality and minimal-never for
ordering — for every Address `x`, including the sentinel itself,
`NO_ADDRESS == x` returns `True` and `NO_ADDRESS < x` returns `False`,
and neither comparison raises. -/
theorem claim_C1_noaddress_absorbing :
    ∀ x : Addr, pyEqA NO_ADDRESS x = .ok true ∧ pyLtA NO_ADDRESS x = .ok false := by
  intro x
  exact ⟨rfl, rfl⟩

/-- C2 counterexample: comparing two different non-sentinel variants does
not always return `False` without throwing — `ProcessAddress(1) ==
ThreadAddress(...)` raises `AssertionError`, and
`AbsoluteVirtualAddress(5) == FileOffsetAddress(5)` returns `True`. -/
theorem claim_C2_counterexample :
    pyEqA (.ProcessAddress 0 1) (.ThreadAddress 0 1 0) = .error .assertionError ∧
    pyEqA (.AbsoluteVirtualAddress 5) (.FileOffsetAddress 5) = .ok true :=
  ⟨rfl, rfl⟩

/-- C2 amended: for two different non-sentinel variants, `a == b` returns
the underlying-value comparison (never throwing, but possibly `True`) when
both variants are `int`-backed, and raises an exception whenever at least
one of the two is not `int`-backed. -/
theorem claim_C2_amended (a b : Addr) (ha : a ≠ .NoAddress) (hb : b ≠ .NoAddress)
    (hd : tag a ≠ tag b) :
    (intBacked a = true ∧ intBacked b = true →
      pyEqA a b = .ok (decide (intValue (.addr a) = intValue (.addr b)))) ∧
    (¬(intBacked a = true ∧ intBacked b = true) → ∃ e, pyEqA a b = .error e) := by
  cases a <;> cases b <;> first
    | (exact absurd rfl ha)
    | (exact absurd rfl hb)
    | (exfalso
       simp only [tag] at hd
       omega)
    | (simp_all [pyEqA, pyEq, eqOwn, intValue, intBacked, int_beq_decide])

/-- C2 amended, witness: `ProcessAddress(1) == AbsoluteVirtualAddress(5)`
raises. -/
theorem claim_C2_amended_witness :
    ∃ e, pyEqA (.ProcessAddress 0 1) (.AbsoluteVirtualAddress 5) = .error e :=
  (claim_C2_amended (.ProcessAddress 0 1) (.AbsoluteVirtualAddress 5)
    (by decide) (by decide) (by decide)).2 (by decide)

/-- C3: same-variant `==` never raises and returns exactly field-tuple
equality — `(ppid, pid)` for ProcessAddress, `(process, tid)` (the
process's `(ppid, pid)` then `tid`) for ThreadAddress,
`(id, returnAddress)` for DynamicAddress, `(token, offset)` for
DNTokenOffsetAddress, and the underlying integer for the `int`-backed
variants, as listed by `key`. -/
theorem claim_C3_same_variant_equality (a b : Addr) (h : tag a = tag b) :
    pyEqA a b = .ok (decide (key a = key b)) :=
  pyEqA_same a b h

/-- C3 witness: two DNTokenOffsetAddress values differing in `offset`. -/
theorem claim_C3_same_variant_equality_witness :
    pyEqA (.DNTokenOffsetAddress 1 2) (.DNTokenOffsetAddress 1 3) =
      .ok (decide (key (.DNTokenOffsetAddress 1 2) = key (.DNTokenOffsetAddress 1 3))) :=
  claim_C3_same_variant_equality _ _ rfl

/-- C4: within each variant `<` is a strict total order consistent with
`==`: it equals lexicographic comparison of the field tuple in the listed
order, is irreflexive and transitive, and exactly one of `a < b`, `b < a`,
`a == b` holds for same-variant values; in particular
`ProcessAddress(pid=5, ppid=0) < ProcessAddress(pid=5, ppid=1)`, and two
ThreadAddress values with equal `tid` order by their processes. -/
theorem claim_C4_strict_total_order (a b c : Addr) (hab : tag a = tag b)
    (hbc : tag b = tag c) :
    pyLtA a b = .ok (lexLt (key a) (key b)) ∧
    pyLtA a a = .ok false ∧
    (pyLtA a b = .ok true → pyLtA b c = .ok true → pyLtA a c = .ok true) ∧
    (pyLtA a b = .ok true ∨ pyLtA b a = .ok true ∨ pyEqA a b = .ok true) ∧
    (pyLtA a b = .ok true → pyLtA b a = .ok false ∧ pyEqA a b = .ok false) ∧
    (pyEqA a b = .ok true → pyLtA a b = .ok false ∧ pyLtA b a = .ok false) ∧
    pyLtA (.ProcessAddress 0 5) (.ProcessAddress 1 5) = .ok true ∧
    ∀ p1 p2 q1 q2 t : Int,
      pyLtA (.ThreadAddress p1 p2 t) (.ThreadAddress q1 q2 t) =
        .ok (lexLt [p1, p2] [q1, q2]) := by
  have hlt := pyLtA_same a b hab
  have hltba := pyLtA_same b a hab.symm
  have hltac := pyLtA_same a c (hab.trans hbc)
  have hltbc := pyLtA_same b c hbc
  have heq := pyEqA_same a b hab
  refine ⟨hlt, ?_, ?_, ?_, ?_, ?_, rfl, ?_⟩
  · rw [pyLtA_same a a rfl, lexLt_irrefl]
  · intro h1 h2
    rw [hlt] at h1
    rw [hltbc] at h2
    rw [hltac]
    simp only [Except.ok.injEq] at h1 h2 ⊢
    exact lexLt_trans h1 h2
  · by_cases h1 : lexLt (key a) (key b) = true
    · exact Or.inl (by rw [hlt, h1])
    · by_cases h2 : lexLt (key b) (key a) = true
      · exact Or.inr (Or.inl (by rw [hltba, h2]))
      · refine Or.inr (Or.inr ?_)
        rw [heq]
        have hk := lexLt_connected (key_length_eq hab)
          (by simpa using h1) (by simpa using h2)
        simp [hk]
  · intro h1
    rw [hlt] at h1
    simp only [Except.ok.injEq] at h1
    constructor
    · rw [hltba, lexLt_asymm h1]
    · rw [heq]
      have hk : key a ≠ key b := by
        intro hk
        rw [hk, lexLt_irrefl] at h1
        exact Bool.false_ne_true h1
      simp [hk]
  · intro h1
    rw [heq] at h1
    simp only [Except.ok.injEq, decide_eq_true_eq] at h1
    constructor
    · rw [hlt, h1, lexLt_irrefl]
    · rw [hltba, h1, lexLt_irrefl]
  · intro p1 p2 q1 q2 t
    rw [pyLtA_same (.ThreadAddress p1 p2 t) (.ThreadAddress q1 q2 t) rfl]
    simp [key, lexLt_pair_ext]

/-- C4 witness: instantiated at three ProcessAddress values. -/
theorem claim_C4_strict_total_order_witness :
    pyLtA (.ProcessAddress 0 5) (.ProcessAddress 0 5) = .ok false :=
  (claim_C4_strict_total_order (.ProcessAddress 0 5) (.ProcessAddress 1 5)
    (.ProcessAddress 2 7) rfl rfl).2.1

/-- C5: same-variant equality implies equal hashes; the hash input tree is
equal exactly when the equality field tuple is (it combines exactly the
fields used by equality, in the same order); and the sentinel hashes to
`hash(0)`. -/
theorem claim_C5_hash_consistency :
    (∀ a b : Addr, tag a = tag b →
      (pyEqA a b = .ok true → pyHashA a = pyHashA b) ∧
      (pyHashA a = pyHashA b ↔ key a = key b)) ∧
    pyHashA NO_ADDRESS = .intH 0 := by
  refine ⟨fun a b h => ⟨fun he => ?_, pyHashA_eq_iff a b h⟩, rfl⟩
  rw [pyEqA_same a b h] at he
  simp only [Except.ok.injEq, decide_eq_true_eq] at he
  exact (pyHashA_eq_iff a b h).mpr he

/-- C5 witness: two equal ThreadAddress values hash identically. -/
theorem claim_C5_hash_consistency_witness :
    pyHashA (.ThreadAddress 1 2 3) = pyHashA (.ThreadAddress 1 2 3) :=
  (claim_C5_hash_consistency.1 (.ThreadAddress 1 2 3) (.ThreadAddress 1 2 3) rfl).1 rfl

/-- C6 counterexample: two successfully constructed values on which an
operation among {equality, ordering} fails — `ProcessAddress(1) ==
AbsoluteVirtualAddress(0x1000)` raises `AssertionError`. -/
theorem claim_C6_counterexample :
    mkProcessAddress 1 0 = .ok (.ProcessAddress 0 1) ∧
    mkAbsoluteVirtualAddress 4096 = .ok (.AbsoluteVirtualAddress 4096) ∧
    pyEqA (.ProcessAddress 0 1) (.AbsoluteVirtualAddress 4096) = .error .assertionError :=
  ⟨rfl, rfl, rfl⟩

/-- C6 amended: construction reports a validation error if and only if a
non-negative-constrained field receives a negative value (or `pid` a
non-positive one); `FileOffsetAddress(-1)` fails while
`FileOffsetAddress(0)` succeeds; and once values are constructed,
same-variant equality and ordering (and hashing and rendering, which are
total functions here) never fail — cross-variant equality and ordering may
still raise. -/
theorem claim_C6_amended :
    (∀ a b : Addr, tag a = tag b →
      (∃ r, pyEqA a b = .ok r) ∧ (∃ r, pyLtA a b = .ok r)) ∧
    (∀ v : Int, (∃ e, mkAbsoluteVirtualAddress v = .error e) ↔ v < 0) ∧
    (∀ v : Int, ∀ e, mkRelativeVirtualAddress v ≠ .error e) ∧
    (∀ v : Int, (∃ e, mkFileOffsetAddress v = .error e) ↔ v < 0) ∧
    (∀ pid ppid : Int,
      (∃ e, mkProcessAddress pid ppid = .error e) ↔ (ppid < 0 ∨ pid ≤ 0)) ∧
    (∀ p1 p2 t : Int, (∃ e, mkThreadAddress p1 p2 t = .error e) ↔ t < 0) ∧
    (∀ i r : Int, (∃ e, mkDynamicAddress i r = .error e) ↔ (i < 0 ∨ r < 0)) ∧
    (∀ t : Int, ∀ e, mkDNTokenAddress t ≠ .error e) ∧
    (∀ t o : Int, (∃ e, mkDNTokenOffsetAddress t o = .error e) ↔ o < 0) ∧
    mkFileOffsetAddress (-1) = .error .assertionError ∧
    mkFileOffsetAddress 0 = .ok (.FileOffsetAddress 0) := by
  refine ⟨fun a b h => ⟨⟨_, pyEqA_same a b h⟩, ⟨_, pyLtA_same a b h⟩⟩,
    ?_, ?_, ?_, ?_, ?_, ?_, ?_, ?_, rfl, rfl⟩
  · intro v
    by_cases h : 0 ≤ v <;> simp [mkAbsoluteVirtualAddress, h] <;> omega
  · intro v e
    simp [mkRelativeVirtualAddress]
  · intro v
    by_cases h : 0 ≤ v <;> simp [mkFileOffsetAddress, h] <;> omega
  · intro pid ppid
    by_cases h1 : 0 ≤ ppid <;> by_cases h2 : 0 < pid <;>
      simp [mkProcessAddress, h1, h2] <;> omega
  · intro p1 p2 t
    by_cases h : 0 ≤ t <;> simp [mkThreadAddress, h] <;> omega
  · intro i r
    by_cases h1 : 0 ≤ i <;> by_cases h2 : 0 ≤ r <;>
      simp [mkDynamicAddress, h1, h2] <;> omega
  · intro t e
    simp [mkDNTokenAddress]
  · intro t o
    by_cases h : 0 ≤ o <;> simp [mkDNTokenOffsetAddress, h] <;> omega

/-- C6 amended, witness: same-variant operations on two constructed
ProcessAddress values return booleans. -/
theorem claim_C6_amended_witness :
    (∃ r, pyEqA (.ProcessAddress 0 1) (.ProcessAddress 0 2) = .ok r) ∧
    (∃ r, pyLtA (.ProcessAddress 0 1) (.ProcessAddress 0 2) = .ok r) :=
  claim_C6_amended.1 (.ProcessAddress 0 1) (.ProcessAddress 0 2) rfl

/-- C7: the DNTokenOffsetAddress integer conversion equals
`token + offset`, its rendered string embeds the lowercase hex forms of
both `token` and `offset`, and for `token = 0x06000001`, `offset = 0x10`
the derived index is `0x06000011`. -/
theorem claim_C7_dn_token_offset :
    (∀ t o : Int,
      pyIndexA (.DNTokenOffsetAddress t o) = some (t + o) ∧
      pyReprA (.DNTokenOffsetAddress t o) =
        "token(0x" ++ intHex t ++ ")+(0x" ++ intHex o ++ ")") ∧
    pyIndexA (.DNTokenOffsetAddress 0x06000001 0x10) = some 0x06000011 ∧
    pyReprA (.DNTokenOffsetAddress 0x06000001 0x10) = "token(0x6000001)+(0x10)" := by
  refine ⟨fun t o => ⟨rfl, rfl⟩, by norm_num [pyIndexA], rfl⟩

/-- C8: for every `n` the constructors accept, the four `int`-backed
variants compare equal to the plain integer `n` (in both dispatch
directions), feed the hash function the same input as `n`, and hence any
two of them holding the same value compare equal to each other. -/
theorem claim_C8_int_equivalence (n : Int) (_h : 0 ≤ n) :
    pyEq (.addr (.AbsoluteVirtualAddress n)) (.pyInt n) = .ok true ∧
    pyEq (.pyInt n) (.addr (.AbsoluteVirtualAddress n)) = .ok true ∧
    pyEq (.addr (.RelativeVirtualAddress n)) (.pyInt n) = .ok true ∧
    pyEq (.addr (.FileOffsetAddress n)) (.pyInt n) = .ok true ∧
    pyEq (.addr (.DNTokenAddress n)) (.pyInt n) = .ok true ∧
    pyHashExpr (.addr (.AbsoluteVirtualAddress n)) = pyHashExpr (.pyInt n) ∧
    pyHashExpr (.addr (.RelativeVirtualAddress n)) = pyHashExpr (.pyInt n) ∧
    pyHashExpr (.addr (.FileOffsetAddress n)) = pyHashExpr (.pyInt n) ∧
    pyHashExpr (.addr (.DNTokenAddress n)) = pyHashExpr (.pyInt n) ∧
    pyEqA (.AbsoluteVirtualAddress n) (.RelativeVirtualAddress n) = .ok true ∧
    pyEqA (.AbsoluteVirtualAddress n) (.FileOffsetAddress n) = .ok true ∧
    pyEqA (.AbsoluteVirtualAddress n) (.DNTokenAddress n) = .ok true ∧
    pyEqA (.RelativeVirtualAddress n) (.FileOffsetAddress n) = .ok true ∧
    pyEqA (.RelativeVirtualAddress n) (.DNTokenAddress n) = .ok true ∧
    pyEqA (.FileOffsetAddress n) (.DNTokenAddress n) = .ok true := by
  simp [pyEqA, pyEq, eqOwn, intValue, int_beq_decide, pyHashExpr]

/-- C8 witness: `AbsoluteVirtualAddress(5) == 5`. -/
theorem claim_C8_int_equivalence_witness :
    pyEq (.addr (.AbsoluteVirtualAddress 5)) (.pyInt 5) = .ok true :=
  (claim_C8_int_equivalence 5 (by decide)).1

/-- C9: the render operation is a total function (it never raises), its
output contains no null (absent metadata fields are omitted), and each
serialized Address keeps its variant tag and field values, so the original
variant can be reconstructed; instantiated on a document holding one
finding at `FileOffsetAddress(0x200)` and one at `NoAddress`. -/
theorem claim_C9_render_total_lossless :
    (∀ d : ResultDocument, noNull (render d) = true) ∧
    (∀ a : Addr, deserializeAddress (serializeAddress a) = some a) ∧
    render ⟨[("version", some "7.0"), ("argv", none)],
        [("r1", [.FileOffsetAddress 0x200, .NoAddress])]⟩ =
      .obj [("version", .str "7.0"),
        ("rules", .obj [("r1", .arr [
          .obj [("type", .str "file"), ("value", .arr [.num 0x200])],
          .obj [("type", .str "no address"), ("value", .arr [])]])])] :=
  ⟨noNull_render, deserialize_serialize, rfl⟩

/-- C10: equality against the sentinel from the non-sentinel side —
`x == NO_ADDRESS` returns `True` for the four `int`-backed variants (the
integer comparison defers and the sentinel's equality is consulted) and
raises an exception for ProcessAddress, ThreadAddress, DynamicAddress and
DNTokenOffsetAddress. -/
theorem claim_C10_reflected_sentinel (x : Addr) (hx : x ≠ .NoAddress) :
    (intBacked x = true → pyEqA x NO_ADDRESS = .ok true) ∧
    (intBacked x = false → ∃ e, pyEqA x NO_ADDRESS = .error e) := by
  cases x <;> first
    | (exact absurd rfl hx)
    | (simp [pyEqA, pyEq, eqOwn, intValue, intBacked, NO_ADDRESS])

/-- C10 witness: `AbsoluteVirtualAddress(0x1000) == NO_ADDRESS` is
`True`. -/
theorem claim_C10_reflected_sentinel_witness :
    pyEqA (.AbsoluteVirtualAddress 4096) NO_ADDRESS = .ok true :=
  (claim_C10_reflected_sentinel (.AbsoluteVirtualAddress 4096) (by decide)).1 rfl

end Capa
